import Mathlib

/-!
Shallow embedding of the telemetry / serial-link logic of
src/Display Screen Code/PiRudderTach.py.

Modelling conventions:
* Python float values and times are modelled as exact rationals (ℚ);
  the constants 0.3, 1.0, 2.0 are exactly representable there.
* The global mutable module state (display values, serial handle,
  timestamps) is a record ProgState, threaded explicitly.
* time.monotonic() readings are passed in as a parameter now : ℚ.
* The pyserial handle is Option Unit: some () = open handle, none = no
  connection.  Exceptions thrown by hardware reads are modelled as an
  explicit ReadEvent.fault input; Python int()/float() parse failures
  are modelled by Option-returning parsers, and the surrounding
  catch-all except-handler of process_serial_data (which calls
  close_serial) is reproduced at each failure point.
* Python int()/float() string parsing is modelled over List Char
  faithfully for ASCII inputs: optional surrounding whitespace,
  optional sign, decimal digits, and for float an optional fractional
  part and decimal exponent.  Python extras not modelled: underscore
  digit grouping, non-ASCII digits, and the literals inf/infinity/nan.
-/

namespace PiRudderTach

/-- DATA_STALE_SECONDS from the source (line 44). -/
def DATA_STALE_SECONDS : ℚ := 1.0

/-- SERIAL_RETRY_SECONDS from the source (line 47). -/
def SERIAL_RETRY_SECONDS : ℚ := 2.0

/-- alpha, the smoothing factor from the source (line 139). -/
def alpha : ℚ := 0.3

/-- The module-level mutable state of PiRudderTach.py: the displayed and
smoothed telemetry values (lines 55-60), the serial handle ser (line 49)
and the two timestamps (lines 50-51). -/
structure ProgState where
  rudder_angle : ℚ
  engine_rpm : ℚ
  smoothed_engine_rpm : ℚ
  smoothed_rudder_angle : ℚ
  shift_indicator : Option ℤ
  fuel_consumption : Option ℚ
  ser : Option Unit
  last_serial_try_time : ℚ
  last_good_frame_time : ℚ
  deriving DecidableEq

/-- map_value from the source (lines 62-63). -/
def map_value (value in_min in_max out_min out_max : ℚ) : ℚ :=
  (value - in_min) * (out_max - out_min) / (in_max - in_min) + out_min

/-- close_serial from the source (lines 85-92): best-effort close, then
ser = None.  The close() call has no modelled effect beyond dropping the
handle. -/
def close_serial (s : ProgState) : ProgState :=
  { s with ser := none }

/-- try_open_serial from the source (lines 65-83).  openOk tells whether
the serial.Serial constructor would succeed at this instant. -/
def try_open_serial (s : ProgState) (now : ℚ) (openOk : Bool) : ProgState :=
  if s.ser.isSome then s
  else if now - s.last_serial_try_time < SERIAL_RETRY_SECONDS then s
  else if openOk then
    { s with last_serial_try_time := now, ser := some () }
  else
    { s with last_serial_try_time := now, ser := none }

/-- set_no_data_state from the source (lines 94-108). -/
def set_no_data_state (s : ProgState) : ProgState :=
  { s with
      smoothed_rudder_angle := 180,
      smoothed_engine_rpm := 3000,
      rudder_angle := 180,
      engine_rpm := 3000,
      shift_indicator := none,
      fuel_consumption := none }

/-- The per-tick staleness check of the main loop (lines 379-381). -/
def data_stale_check (s : ProgState) (now : ℚ) : ProgState :=
  if now - s.last_good_frame_time > DATA_STALE_SECONDS then
    set_no_data_state s
  else s

/-- The whitespace characters stripped by Python str.strip() (ASCII part). -/
def isPySpace (c : Char) : Bool :=
  c = ' ' || c = '\t' || c = '\n' || c = '\r' || c = '\x0b' || c = '\x0c'

/-- Python str.strip(): drop whitespace from both ends. -/
def pyStrip (cs : List Char) : List Char :=
  ((cs.dropWhile isPySpace).reverse.dropWhile isPySpace).reverse

/-- Helper for splitOnChar: accumulate the current field (reversed). -/
def splitOnCharAux (sep : Char) : List Char → List Char → List (List Char)
  | [], acc => [acc.reverse]
  | c :: rest, acc =>
      if c = sep then acc.reverse :: splitOnCharAux sep rest []
      else splitOnCharAux sep rest (c :: acc)

/-- Python str.split(sep) for a one-character separator: always returns at
least one (possibly empty) field. -/
def splitOnChar (sep : Char) (cs : List Char) : List (List Char) :=
  splitOnCharAux sep cs []

/-- Decimal digit string to Nat. -/
def digitsToNat (cs : List Char) : ℕ :=
  cs.foldl (fun a c => a * 10 + (c.toNat - 48)) 0

/-- A non-empty all-digit string, as a Nat. -/
def parseUnsignedDigits (cs : List Char) : Option ℕ :=
  if (!cs.isEmpty) && cs.all Char.isDigit then some (digitsToNat cs) else none

/-- Optional sign followed by a non-empty digit string. -/
def parseSignedInt (cs : List Char) : Option ℤ :=
  match cs with
  | [] => none
  | c :: rest =>
      if c = '-' then (parseUnsignedDigits rest).map (fun n => -(n : ℤ))
      else if c = '+' then (parseUnsignedDigits rest).map (fun n => (n : ℤ))
      else (parseUnsignedDigits cs).map (fun n => (n : ℤ))

/-- Python int(str): surrounding whitespace allowed, optional sign,
decimal digits; anything else raises (= none). -/
def pyInt (cs : List Char) : Option ℤ :=
  parseSignedInt (pyStrip cs)

/-- Mantissa of a Python float literal: digits, digits.digits, digits.
or .digits.  Result (n, d) denotes the non-negative value n / 10 ^ d. -/
def parseFracRep (cs : List Char) : Option (ℤ × ℕ) :=
  match splitOnChar '.' cs with
  | [ip] => (parseUnsignedDigits ip).map (fun n => ((n : ℤ), 0))
  | [ip, fp] =>
      if ip.all Char.isDigit && fp.all Char.isDigit && !(ip.isEmpty && fp.isEmpty) then
        some (((digitsToNat ip * 10 ^ fp.length + digitsToNat fp : ℕ) : ℤ), fp.length)
      else none
  | _ => none

/-- Python float(str) in exact form: result (n, d) denotes n / 10 ^ d.
Handles whitespace, sign, fractional part and a decimal exponent. -/
def pyFloatRep (cs : List Char) : Option (ℤ × ℕ) :=
  match pyStrip cs with
  | [] => none
  | c :: rest =>
      let body := if c = '-' || c = '+' then rest else c :: rest
      let neg := c = '-'
      let partsE := splitOnChar 'e' body
      let parts := if partsE.length = 2 then partsE else splitOnChar 'E' body
      match parts with
      | [m] => (parseFracRep m).map (fun p => (if neg then -p.1 else p.1, p.2))
      | [m, ex] =>
          match parseFracRep m, parseSignedInt ex with
          | some p, some e =>
              if 0 ≤ e then
                some ((if neg then -p.1 else p.1) * (10 : ℤ) ^ e.toNat, p.2)
              else
                some ((if neg then -p.1 else p.1), p.2 + (-e).toNat)
          | _, _ => none
      | _ => none

/-- Python float(str) as an exact rational. -/
def pyFloat (cs : List Char) : Option ℚ :=
  (pyFloatRep cs).map (fun p => (p.1 : ℚ) / 10 ^ p.2)

/-- The smoothing update of process_serial_data (lines 139-148), applied
per channel: the previous smoothed value is replaced outright when it
equals 0, otherwise blended with weight alpha on the new sample. -/
def smoothStep (prev new : ℚ) : ℚ :=
  if prev = 0 then new else alpha * new + (1 - alpha) * prev

/-- Lines 128-154 of process_serial_data, from the comma-split field list
on.  Python executes the four parses in order and assigns the globals
shift_indicator and fuel_consumption as it goes, so a parse failure at a
later field keeps the assignments already made; every parse failure is
caught by the except-handler (lines 156-159), which calls close_serial. -/
def processFields (s : ProgState) (now : ℚ) (values : List (List Char)) : ProgState :=
  match values with
  | v0 :: v1 :: v2 :: v3 :: _ =>
      match pyInt v0 with
      | none => close_serial s
      | some pot_value =>
          match pyInt v1 with
          | none => close_serial s
          | some pot_value2 =>
              match pyInt v2 with
              | none => close_serial s
              | some shift_code =>
                  match pyFloat v3 with
                  | none => close_serial { s with shift_indicator := some shift_code }
                  | some fuel =>
                      { s with
                          shift_indicator := some shift_code,
                          fuel_consumption := some fuel,
                          smoothed_engine_rpm :=
                            smoothStep s.smoothed_engine_rpm
                              (map_value (pot_value2 : ℚ) 0 4095 0 6000),
                          smoothed_rudder_angle :=
                            smoothStep s.smoothed_rudder_angle
                              (map_value (pot_value : ℚ) 0 4095 240 120),
                          rudder_angle :=
                            smoothStep s.smoothed_rudder_angle
                              (map_value (pot_value : ℚ) 0 4095 240 120),
                          engine_rpm :=
                            smoothStep s.smoothed_engine_rpm
                              (map_value (pot_value2 : ℚ) 0 4095 0 6000),
                          last_good_frame_time := now }
  | _ => s

/-- Lines 123-154: strip the decoded line, drop it when empty, otherwise
split on commas and process the fields. -/
def processLine (s : ProgState) (now : ℚ) (raw : List Char) : ProgState :=
  match pyStrip raw with
  | [] => s
  | c :: rest => processFields s now (splitOnChar ',' (c :: rest))

/-- What one call of process_serial_data can observe from the serial
handle: a hardware fault raised during the read, no line available, or a
decoded line. -/
inductive ReadEvent where
  | fault : ReadEvent
  | noLine : ReadEvent
  | line : List Char → ReadEvent

/-- process_serial_data from the source (lines 110-159): no-op when
disconnected; a fault raised by the read is caught and close_serial is
run; an empty read returns; otherwise the line is processed. -/
def process_serial_data (s : ProgState) (now : ℚ) (ev : ReadEvent) : ProgState :=
  match s.ser with
  | none => s
  | some _ =>
      match ev with
      | ReadEvent.fault => close_serial s
      | ReadEvent.noLine => s
      | ReadEvent.line raw => processLine s now raw

/-- gear_lookup.get(shift_indicator, "-") from draw_fuel_and_shift_boxes
(lines 356-357). -/
def gear_letter (g : Option ℤ) : String :=
  match g with
  | some 1 => "R"
  | some 2 => "N"
  | some 3 => "F"
  | _ => "-"

/-- One-decimal rendering of the fuel value, modelling the f-string
format spec .1f of line 343 (rounding of exact half-tenths uses
round-half-up here where Python uses round-half-even; no claim depends
on that case). -/
def format1f (v : ℚ) : String :=
  (if round (v * 10) < 0 then "-" else "")
    ++ toString ((round (v * 10) : ℤ).natAbs / 10)
    ++ "."
    ++ toString ((round (v * 10) : ℤ).natAbs % 10)

/-- The fuel box text of draw_fuel_and_shift_boxes (line 343): the value
to one decimal, or a dash when absent. -/
def fuel_str (f : Option ℚ) : String :=
  match f with
  | none => "-"
  | some v => format1f v

/-- Acceptance of a split line as the claim states it: at least 4 fields
whose first four parse as int, int, int, float.  (Stated from the
claim's words, to be compared with processFields.) -/
def accepts_spec (values : List (List Char)) : Bool :=
  match values with
  | v0 :: v1 :: v2 :: v3 :: _ =>
      (pyInt v0).isSome && (pyInt v1).isSome && (pyInt v2).isSome && (pyFloat v3).isSome
  | _ => false

/-- The boot-time state (lines 55-60 and 363-364) with the serial handle
open: displayed values centered, timestamps 0. -/
def bootState : ProgState :=
  { rudder_angle := 180,
    engine_rpm := 3000,
    smoothed_engine_rpm := 3000,
    smoothed_rudder_angle := 180,
    shift_indicator := none,
    fuel_consumption := none,
    ser := some (),
    last_serial_try_time := 0,
    last_good_frame_time := 0 }

/-- A state with arbitrary non-centered display values, used to show the
stale reset overrides whatever was there. -/
def wildState : ProgState :=
  { rudder_angle := 7,
    engine_rpm := 55,
    smoothed_engine_rpm := 55,
    smoothed_rudder_angle := 7,
    shift_indicator := some 2,
    fuel_consumption := some 9,
    ser := some (),
    last_serial_try_time := 3,
    last_good_frame_time := 0 }

/-- The frame "0,0,0,0.0" as a char list. -/
def frame0 : List Char := ['0', ',', '0', ',', '0', ',', '0', '.', '0']

/-- The frame "0,0,3,x": fields 0-2 parse, field 3 fails float parsing. -/
def badFuelLine : List Char := ['0', ',', '0', ',', '3', ',', 'x']

/-- The frame "x,0,0,0.0": field 0 fails int parsing. -/
def badIntLine : List Char := ['x', ',', '0', ',', '0', ',', '0', '.', '0']

/-- pyFloat in terms of its exact integer representation (none case). -/
theorem pyFloat_eq_none (cs : List Char) (h : pyFloatRep cs = none) : pyFloat cs = none := by
  simp [pyFloat, h]

/-- pyFloat in terms of its exact integer representation (some case). -/
theorem pyFloat_eq_some (cs : List Char) (n : ℤ) (d : ℕ) (h : pyFloatRep cs = some (n, d)) :
    pyFloat cs = some ((n : ℚ) / 10 ^ d) := by
  simp [pyFloat, h]

/-- Full evaluation of the frame "0,0,0,0.0" against the freshly reset
centered state: both smoothed channels are blended with the centered
defaults (alpha = 0.3), giving 2100 RPM and 198 degrees, not the mapped
raw values 0 and 240. -/
theorem frame0_eval :
    process_serial_data (set_no_data_state bootState) 5 (ReadEvent.line frame0)
      = { bootState with
            shift_indicator := some 0,
            fuel_consumption := some 0,
            smoothed_engine_rpm := 2100,
            smoothed_rudder_angle := 198,
            rudder_angle := 198,
            engine_rpm := 2100,
            last_good_frame_time := 5 } := by
  have hser : (set_no_data_state bootState).ser = some () := rfl
  have hstrip : pyStrip frame0 = '0' :: [',', '0', ',', '0', ',', '0', '.', '0'] := by decide
  have hsplit : splitOnChar ',' ('0' :: [',', '0', ',', '0', ',', '0', '.', '0'])
      = [['0'], ['0'], ['0'], ['0', '.', '0']] := by decide
  have hint : pyInt (['0']) = some 0 := by decide
  have hfl : pyFloat (['0', '.', '0']) = some ((0 : ℚ) / 10 ^ 1) :=
    pyFloat_eq_some _ 0 1 (by decide)
  rw [process_serial_data, hser]
  dsimp only
  rw [processLine, hstrip]
  dsimp only
  rw [hsplit, processFields, hint]
  dsimp only
  rw [hfl]
  dsimp only
  simp only [set_no_data_state, bootState]
  norm_num [smoothStep, map_value, alpha, ProgState.mk.injEq]

/-- Claim C1 as stated is false: for the first valid frame after a stale
reset (frame "0,0,0,0.0" against the centered defaults), the stored
smoothed RPM is 2100, not the mapped raw value 0, and the stored
smoothed rudder angle is 198, not the mapped raw value 240: the
smoothing step is not skipped. -/
theorem C1_counterexample :
    (process_serial_data (set_no_data_state bootState) 5 (ReadEvent.line frame0)).smoothed_engine_rpm
        ≠ map_value 0 0 4095 0 6000 ∧
    (process_serial_data (set_no_data_state bootState) 5 (ReadEvent.line frame0)).smoothed_rudder_angle
        ≠ map_value 0 0 4095 240 120 := by
  rw [frame0_eval]
  constructor
  · show (2100 : ℚ) ≠ map_value 0 0 4095 0 6000
    norm_num [map_value]
  · show (198 : ℚ) ≠ map_value 0 0 4095 240 120
    norm_num [map_value]

/-- Claim C1 (amended): the seed branch of the smoothing step applies
only when the stored smoothed value is exactly 0; after a stale reset
the stored smoothed values are the centered defaults 3000 and 180, which
are nonzero, so the first valid frame after a stale reset is blended
with the centered defaults (weight alpha on the new sample), not stored
as the mapped raw value. -/
theorem C1_amended (s : ProgState) (prev new : ℚ) (h : prev ≠ 0) :
    smoothStep prev new = alpha * new + (1 - alpha) * prev ∧
    smoothStep 0 new = new ∧
    (set_no_data_state s).smoothed_engine_rpm = 3000 ∧
    (set_no_data_state s).smoothed_rudder_angle = 180 ∧
    smoothStep (set_no_data_state s).smoothed_engine_rpm new
      = alpha * new + (1 - alpha) * 3000 ∧
    smoothStep (set_no_data_state s).smoothed_rudder_angle new
      = alpha * new + (1 - alpha) * 180 := by
  refine ⟨?_, ?_, rfl, rfl, ?_, ?_⟩
  · simp [smoothStep, h]
  · simp [smoothStep]
  · show smoothStep 3000 new = _
    norm_num [smoothStep]
  · show smoothStep 180 new = _
    norm_num [smoothStep]

/-- Witness for C1_amended at prev = 3000, new = 0. -/
theorem C1_witness :
    smoothStep (3000 : ℚ) 0 = alpha * 0 + (1 - alpha) * 3000 :=
  (C1_amended bootState 3000 0 (by norm_num)).1

/-- Claim C4: the rudder mapping is the decreasing linear map sending
0 to 240 and 4095 to 120, and the RPM mapping is the increasing linear
map sending 0 to 0 and 4095 to 6000. -/
theorem C4_mapping :
    map_value 0 0 4095 240 120 = 240 ∧
    map_value 4095 0 4095 240 120 = 120 ∧
    map_value 0 0 4095 0 6000 = 0 ∧
    map_value 4095 0 4095 0 6000 = 6000 ∧
    (∀ v : ℚ, map_value v 0 4095 240 120 = 240 - 120 / 4095 * v) ∧
    (∀ v : ℚ, map_value v 0 4095 0 6000 = 6000 / 4095 * v) ∧
    (∀ v w : ℚ, v < w → map_value w 0 4095 240 120 < map_value v 0 4095 240 120) ∧
    (∀ v w : ℚ, v < w → map_value v 0 4095 0 6000 < map_value w 0 4095 0 6000) := by
  refine ⟨by norm_num [map_value], by norm_num [map_value], by norm_num [map_value],
    by norm_num [map_value], fun v => by rw [map_value]; ring, fun v => by rw [map_value]; ring,
    fun v w hvw => ?_, fun v w hvw => ?_⟩
  · rw [map_value, map_value]
    have h120 : (0 : ℚ) < 120 / 4095 := by norm_num
    nlinarith
  · rw [map_value, map_value]
    have h6000 : (0 : ℚ) < 6000 / 4095 := by norm_num
    nlinarith

/-- Witness for C4_mapping: endpoint value and strict decrease at 0 < 1. -/
theorem C4_witness :
    map_value 0 0 4095 240 120 = 240 ∧
    map_value 1 0 4095 240 120 < map_value 0 0 4095 240 120 :=
  ⟨C4_mapping.1, C4_mapping.2.2.2.2.2.2.1 0 1 (by norm_num)⟩

/-- Claim C5: whenever strictly more than DATA_STALE_SECONDS have
elapsed since the last good frame, the per-tick staleness check resets
the display regardless of prior values: rudder 180 (raw and smoothed),
RPM 3000 (raw and smoothed), gear and fuel cleared. -/
theorem C5_stale_reset (s : ProgState) (now : ℚ)
    (h : now - s.last_good_frame_time > DATA_STALE_SECONDS) :
    data_stale_check s now = set_no_data_state s ∧
    (data_stale_check s now).rudder_angle = 180 ∧
    (data_stale_check s now).smoothed_rudder_angle = 180 ∧
    (data_stale_check s now).engine_rpm = 3000 ∧
    (data_stale_check s now).smoothed_engine_rpm = 3000 ∧
    (data_stale_check s now).shift_indicator = none ∧
    (data_stale_check s now).fuel_consumption = none := by
  have hd : data_stale_check s now = set_no_data_state s := by
    rw [data_stale_check, if_pos h]
  rw [hd]
  exact ⟨rfl, rfl, rfl, rfl, rfl, rfl, rfl⟩

/-- Witness for C5_stale_reset at a state with non-centered values. -/
theorem C5_witness :
    data_stale_check wildState 5 = set_no_data_state wildState ∧
    (data_stale_check wildState 5).rudder_angle = 180 ∧
    (data_stale_check wildState 5).smoothed_rudder_angle = 180 ∧
    (data_stale_check wildState 5).engine_rpm = 3000 ∧
    (data_stale_check wildState 5).smoothed_engine_rpm = 3000 ∧
    (data_stale_check wildState 5).shift_indicator = none ∧
    (data_stale_check wildState 5).fuel_consumption = none :=
  C5_stale_reset wildState 5 (by norm_num [wildState, DATA_STALE_SECONDS])

/-- Claim C8: the no-data reset is idempotent, so re-applying it on
every tick while stale leaves the state unchanged after the first
application. -/
theorem C8_idempotent (s : ProgState) :
    set_no_data_state (set_no_data_state s) = set_no_data_state s := rfl

/-- Claim C2 as stated is false: on the line "0,0,3,x" (field 3 fails
float parsing) the displayed gear code is mutated to 3 even though the
frame is rejected, because Python assigns the shift_indicator global
before parsing field 3. -/
theorem C2_counterexample :
    (process_serial_data bootState 5 (ReadEvent.line badFuelLine)).shift_indicator
        ≠ bootState.shift_indicator ∧
    (process_serial_data bootState 5 (ReadEvent.line badFuelLine)).shift_indicator = some 3 ∧
    (process_serial_data bootState 5 (ReadEvent.line badFuelLine)).last_good_frame_time
        = bootState.last_good_frame_time := by
  have hser : bootState.ser = some () := rfl
  have hstrip : pyStrip badFuelLine = '0' :: [',', '0', ',', '3', ',', 'x'] := by decide
  have hsplit : splitOnChar ',' ('0' :: [',', '0', ',', '3', ',', 'x'])
      = [['0'], ['0'], ['3'], ['x']] := by decide
  have hi0 : pyInt (['0']) = some 0 := by decide
  have hi3 : pyInt (['3']) = some 3 := by decide
  have hfl : pyFloat (['x']) = none := pyFloat_eq_none _ (by decide)
  rw [process_serial_data, hser]
  dsimp only
  rw [processLine, hstrip]
  dsimp only
  rw [hsplit, processFields, hi0]
  dsimp only
  rw [hi3]
  dsimp only
  rw [hfl]
  dsimp only
  simp [close_serial, bootState]

/-- Claim C2 (amended): a line with fewer than 4 fields leaves the whole
state unchanged; on any other line, either the frame fully parses and the
last-good timestamp is set to now, or rudder angle, RPM, both smoothed
values, fuel rate and the timestamp are all unchanged — but the gear code
is not covered by that guarantee (it is assigned before field 3 is
parsed, so it can be mutated by a rejected frame). -/
theorem C2_amended (s : ProgState) (now : ℚ) (values : List (List Char)) :
    (values.length < 4 → processFields s now values = s) ∧
    ((processFields s now values).last_good_frame_time = now ∨
      ((processFields s now values).rudder_angle = s.rudder_angle ∧
       (processFields s now values).engine_rpm = s.engine_rpm ∧
       (processFields s now values).smoothed_engine_rpm = s.smoothed_engine_rpm ∧
       (processFields s now values).smoothed_rudder_angle = s.smoothed_rudder_angle ∧
       (processFields s now values).fuel_consumption = s.fuel_consumption ∧
       (processFields s now values).last_good_frame_time = s.last_good_frame_time)) := by
  rcases values with _ | ⟨v0, _ | ⟨v1, _ | ⟨v2, _ | ⟨v3, rest⟩⟩⟩⟩
  · exact ⟨fun _ => rfl, Or.inr ⟨rfl, rfl, rfl, rfl, rfl, rfl⟩⟩
  · exact ⟨fun _ => rfl, Or.inr ⟨rfl, rfl, rfl, rfl, rfl, rfl⟩⟩
  · exact ⟨fun _ => rfl, Or.inr ⟨rfl, rfl, rfl, rfl, rfl, rfl⟩⟩
  · exact ⟨fun _ => rfl, Or.inr ⟨rfl, rfl, rfl, rfl, rfl, rfl⟩⟩
  · refine ⟨fun hlen => ?_, ?_⟩
    · simp at hlen
      omega
    · cases h0 : pyInt v0 with
      | none => exact Or.inr (by simp [processFields, close_serial, h0])
      | some p =>
        cases h1 : pyInt v1 with
        | none => exact Or.inr (by simp [processFields, close_serial, h0, h1])
        | some p2 =>
          cases h2 : pyInt v2 with
          | none => exact Or.inr (by simp [processFields, close_serial, h0, h1, h2])
          | some g =>
            cases h3 : pyFloat v3 with
            | none => exact Or.inr (by simp [processFields, close_serial, h0, h1, h2, h3])
            | some f => exact Or.inl (by simp [processFields, h0, h1, h2, h3])

/-- Witness for C2_amended: a 2-field line leaves the state unchanged. -/
theorem C2_witness :
    processFields bootState 7 [['1'], ['2']] = bootState :=
  (C2_amended bootState 7 [['1'], ['2']]).1 (by decide)

/-- Claim C3 as stated is false: on the line "x,0,0,0.0" (a numeric
parse failure in field 0), the serial connection does not stay open —
the catch-all handler closes and discards it. -/
theorem C3_counterexample :
    (process_serial_data bootState 5 (ReadEvent.line badIntLine)).ser = none ∧
    bootState.ser = some () := by
  have hser : bootState.ser = some () := rfl
  have hstrip : pyStrip badIntLine = 'x' :: [',', '0', ',', '0', ',', '0', '.', '0'] := by decide
  have hsplit : splitOnChar ',' ('x' :: [',', '0', ',', '0', ',', '0', '.', '0'])
      = [['x'], ['0'], ['0'], ['0', '.', '0']] := by decide
  have hi0 : pyInt (['x']) = none := by decide
  rw [process_serial_data, hser]
  dsimp only
  rw [processLine, hstrip]
  dsimp only
  rw [hsplit, processFields, hi0]
  exact ⟨rfl, rfl⟩

/-- Claim C3 (amended): a numeric parse failure in any of the first four
fields drops the frame (no timestamp update) but also collapses the
serial connection, exactly like a mid-read hardware fault: the int()/
float() exception is caught by the same catch-all handler, which calls
close_serial. -/
theorem C3_amended (s : ProgState) (now : ℚ) (v0 v1 v2 v3 : List Char)
    (rest : List (List Char))
    (hfail : pyInt v0 = none ∨ pyInt v1 = none ∨ pyInt v2 = none ∨ pyFloat v3 = none) :
    (processFields s now (v0 :: v1 :: v2 :: v3 :: rest)).ser = none ∧
    (processFields s now (v0 :: v1 :: v2 :: v3 :: rest)).last_good_frame_time
      = s.last_good_frame_time := by
  cases h0 : pyInt v0 with
  | none => simp [processFields, close_serial, h0]
  | some p =>
    cases h1 : pyInt v1 with
    | none => simp [processFields, close_serial, h0, h1]
    | some p2 =>
      cases h2 : pyInt v2 with
      | none => simp [processFields, close_serial, h0, h1, h2]
      | some g =>
        cases h3 : pyFloat v3 with
        | none => simp [processFields, close_serial, h0, h1, h2, h3]
        | some f =>
          rcases hfail with h | h | h | h
          · rw [h0] at h; exact absurd h (by simp)
          · rw [h1] at h; exact absurd h (by simp)
          · rw [h2] at h; exact absurd h (by simp)
          · rw [h3] at h; exact absurd h (by simp)

/-- Witness for C3_amended at the fields of the line "x,0,0,0.0". -/
theorem C3_witness :
    (processFields bootState 5 [['x'], ['0'], ['0'], ['0', '.', '0']]).ser = none ∧
    (processFields bootState 5 [['x'], ['0'], ['0'], ['0', '.', '0']]).last_good_frame_time
      = bootState.last_good_frame_time :=
  C3_amended bootState 5 (['x']) (['0']) (['0']) (['0', '.', '0']) []
    (Or.inl (by decide))

/-- Claim C6: try_open_serial is a no-op while connected, a no-op within
the 2-second cooldown window, and an attempt at time now (recorded in
last_serial_try_time) suppresses every further call for strictly less
than SERIAL_RETRY_SECONDS afterwards — whether the attempt succeeded,
failed, or the resulting connection has since collapsed. -/
theorem C6_cooldown (s : ProgState) (now now2 : ℚ) (ok ok2 : Bool) :
    (s.ser.isSome = true → try_open_serial s now ok = s) ∧
    (now - s.last_serial_try_time < SERIAL_RETRY_SECONDS → try_open_serial s now ok = s) ∧
    (s.ser = none → ¬ now - s.last_serial_try_time < SERIAL_RETRY_SECONDS →
      (try_open_serial s now ok).last_serial_try_time = now ∧
      (try_open_serial s now ok).ser = (if ok then some () else none) ∧
      (now2 - now < SERIAL_RETRY_SECONDS →
        try_open_serial (try_open_serial s now ok) now2 ok2 = try_open_serial s now ok ∧
        try_open_serial (close_serial (try_open_serial s now ok)) now2 ok2
          = close_serial (try_open_serial s now ok))) := by
  refine ⟨fun hser => ?_, fun hcool => ?_, fun hser hcool => ?_⟩
  · rw [try_open_serial, if_pos hser]
  · by_cases hs : s.ser.isSome = true
    · rw [try_open_serial, if_pos hs]
    · rw [try_open_serial, if_neg hs, if_pos hcool]
  · have hopen : try_open_serial s now ok
        = { s with last_serial_try_time := now, ser := if ok then some () else none } := by
      cases ok <;> simp [try_open_serial, hser, hcool]
    refine ⟨by rw [hopen], by rw [hopen], fun hwin => ⟨?_, ?_⟩⟩
    · cases ok <;>
        (rw [hopen, try_open_serial]
         simp [hwin])
    · rw [hopen]
      simp only [close_serial]
      rw [try_open_serial]
      simp [hwin]

/-- Witness for C6_cooldown: a failed attempt at t = 10 from a
disconnected state records the attempt time, and a call at t = 11 is a
no-op. -/
theorem C6_witness :
    (try_open_serial { bootState with ser := none } 10 false).last_serial_try_time = 10 ∧
    try_open_serial (try_open_serial { bootState with ser := none } 10 false) 11 true
      = try_open_serial { bootState with ser := none } 10 false := by
  have h := (C6_cooldown { bootState with ser := none } 10 11 false true).2.2
    rfl (by norm_num [bootState, SERIAL_RETRY_SECONDS])
  exact ⟨h.1, (h.2.2 (by norm_num [SERIAL_RETRY_SECONDS])).1⟩

/-- Claim C7: a fault raised during a read while connected is absorbed:
the only state change is that the handle is closed and discarded
(ser = none, every other field including last_serial_try_time kept), and
the next tick's open attempt then behaves exactly as from a
never-connected state — a no-op inside the cooldown window, a real
attempt once the cooldown has elapsed. -/
theorem C7_fault_recovery (s : ProgState) (now now2 : ℚ) (ok : Bool)
    (h : s.ser = some ()) :
    process_serial_data s now ReadEvent.fault = { s with ser := none } ∧
    (now2 - s.last_serial_try_time < SERIAL_RETRY_SECONDS →
      try_open_serial { s with ser := none } now2 ok = { s with ser := none }) ∧
    (¬ now2 - s.last_serial_try_time < SERIAL_RETRY_SECONDS →
      (try_open_serial { s with ser := none } now2 ok).last_serial_try_time = now2 ∧
      (try_open_serial { s with ser := none } now2 ok).ser
        = (if ok then some () else none)) := by
  refine ⟨?_, fun hcool => ?_, fun hcool => ?_⟩
  · rw [process_serial_data, h]
    dsimp only
    rw [close_serial]
  · rw [try_open_serial, if_neg (by simp), if_pos (by simpa using hcool)]
  · rw [try_open_serial, if_neg (by simp)]
    rw [if_neg (by simpa using hcool)]
    cases ok <;> simp

/-- Witness for C7_fault_recovery: a fault at the boot state closes the
handle; a retry inside the cooldown is a no-op. -/
theorem C7_witness :
    process_serial_data bootState 5 ReadEvent.fault = { bootState with ser := none } ∧
    try_open_serial { bootState with ser := none } 1 true = { bootState with ser := none } :=
  ⟨(C7_fault_recovery bootState 5 1 true rfl).1,
   (C7_fault_recovery bootState 5 1 true rfl).2.1
     (by norm_num [bootState, SERIAL_RETRY_SECONDS])⟩

/-- Claim C9: on a fully valid frame the gear code and fuel rate are
stored exactly as parsed, with no smoothing; when absent, the display
functions render the placeholder dash. -/
theorem C9_verbatim (s : ProgState) (now : ℚ) (v0 v1 v2 v3 : List Char)
    (rest : List (List Char)) (p p2 g : ℤ) (f : ℚ)
    (h0 : pyInt v0 = some p) (h1 : pyInt v1 = some p2)
    (h2 : pyInt v2 = some g) (h3 : pyFloat v3 = some f) :
    (processFields s now (v0 :: v1 :: v2 :: v3 :: rest)).shift_indicator = some g ∧
    (processFields s now (v0 :: v1 :: v2 :: v3 :: rest)).fuel_consumption = some f ∧
    gear_letter none = "-" ∧
    fuel_str none = "-" := by
  simp [processFields, h0, h1, h2, h3, gear_letter, fuel_str]

/-- Witness for C9_verbatim at the fields of the line "1,2,3,2". -/
theorem C9_witness :
    (processFields bootState 9 [['1'], ['2'], ['3'], ['2']]).shift_indicator = some 3 ∧
    (processFields bootState 9 [['1'], ['2'], ['3'], ['2']]).fuel_consumption
      = some ((2 : ℚ) / 10 ^ 0) ∧
    gear_letter none = "-" ∧
    fuel_str none = "-" :=
  C9_verbatim bootState 9 (['1']) (['2']) (['3']) (['2']) [] 1 2 3 ((2 : ℚ) / 10 ^ 0)
    (by decide) (by decide) (by decide) (pyFloat_eq_some _ 2 0 (by decide))

/-- Claim C10: a split line is accepted (timestamp set to now) exactly
when it has at least 4 fields whose first four parse as int, int, int,
float; any extra fields are ignored; and no range validation happens —
negative or oversized raw values are accepted and mapped by linear
extrapolation outside the nominal output ranges, and a gear code outside
0..3 is accepted. -/
theorem C10_acceptance (s : ProgState) (now : ℚ) (values : List (List Char))
    (v0 v1 v2 v3 : List Char) (rest rest2 : List (List Char)) (v : ℚ)
    (hnow : s.last_good_frame_time ≠ now) :
    ((processFields s now values).last_good_frame_time = now ↔ accepts_spec values = true) ∧
    processFields s now (v0 :: v1 :: v2 :: v3 :: rest)
      = processFields s now (v0 :: v1 :: v2 :: v3 :: rest2) ∧
    (v < 0 → map_value v 0 4095 240 120 > 240) ∧
    (v > 4095 → map_value v 0 4095 240 120 < 120) ∧
    (v < 0 → map_value v 0 4095 0 6000 < 0) ∧
    (v > 4095 → map_value v 0 4095 0 6000 > 6000) ∧
    pyInt (['-', '1']) = some (-1) ∧
    accepts_spec [['-', '1'], ['5', '0', '0', '0'], ['7'], ['2']] = true := by
  have hrud : ∀ u : ℚ, map_value u 0 4095 240 120 = 240 - 120 / 4095 * u := by
    intro u; rw [map_value]; ring
  have hrpm : ∀ u : ℚ, map_value u 0 4095 0 6000 = 6000 / 4095 * u := by
    intro u; rw [map_value]; ring
  refine ⟨?_, rfl, fun hv => ?_, fun hv => ?_, fun hv => ?_, fun hv => ?_,
    by decide, by decide⟩
  · rcases values with _ | ⟨w0, _ | ⟨w1, _ | ⟨w2, _ | ⟨w3, wrest⟩⟩⟩⟩
    · simp [processFields, accepts_spec, hnow]
    · simp [processFields, accepts_spec, hnow]
    · simp [processFields, accepts_spec, hnow]
    · simp [processFields, accepts_spec, hnow]
    · cases h0 : pyInt w0 with
      | none => simp [processFields, accepts_spec, close_serial, h0, hnow]
      | some p =>
        cases h1 : pyInt w1 with
        | none => simp [processFields, accepts_spec, close_serial, h0, h1, hnow]
        | some p2 =>
          cases h2 : pyInt w2 with
          | none => simp [processFields, accepts_spec, close_serial, h0, h1, h2, hnow]
          | some g =>
            cases h3 : pyFloat w3 with
            | none => simp [processFields, accepts_spec, close_serial, h0, h1, h2, h3, hnow]
            | some f => simp [processFields, accepts_spec, h0, h1, h2, h3]
  · rw [hrud]
    have : 120 / 4095 * v < 0 := mul_neg_of_pos_of_neg (by norm_num) hv
    linarith
  · rw [hrud]
    have : (120 : ℚ) / 4095 * 4095 < 120 / 4095 * v := by
      refine mul_lt_mul_of_pos_left hv (by norm_num)
    norm_num at this
    linarith
  · rw [hrpm]
    exact mul_neg_of_pos_of_neg (by norm_num) hv
  · rw [hrpm]
    have : (6000 : ℚ) / 4095 * 4095 < 6000 / 4095 * v := by
      refine mul_lt_mul_of_pos_left hv (by norm_num)
    norm_num at this
    linarith

/-- Witness for C10_acceptance: the 4-field line with a negative rudder
raw, an oversized RPM raw and gear code 7 is accepted from the boot
state, and the extrapolation bounds hold at v = -1 and v = 5000. -/
theorem C10_witness :
    (processFields bootState 5 [['-', '1'], ['5', '0', '0', '0'], ['7'], ['2']]).last_good_frame_time
      = 5 ∧
    map_value (-1) 0 4095 240 120 > 240 ∧
    map_value 5000 0 4095 0 6000 > 6000 := by
  have h := C10_acceptance bootState 5
    [['-', '1'], ['5', '0', '0', '0'], ['7'], ['2']]
    [] [] [] [] [] [] (-1) (by norm_num [bootState])
  have h2 := C10_acceptance bootState 5
    [['-', '1'], ['5', '0', '0', '0'], ['7'], ['2']]
    [] [] [] [] [] [] (5000 : ℚ) (by norm_num [bootState])
  exact ⟨h.1.mpr (by decide), h.2.2.1 (by norm_num), h2.2.2.2.2.2.1 (by norm_num)⟩

end PiRudderTach
